import Mathlib

/-
Verification development for the whfinance multi-year financial simulator
(src/whfinance.py).  The Python module is shallowly embedded below:

* Python dictionaries holding scenario data become Lean structures.  The
  `business_dev_cost_year` key may be absent from a finance scenario
  (a scenario-set-version difference), so it is embedded as an `Option`;
  a bare dictionary lookup on an absent key raises `KeyError`, embedded as
  `Except.error (SimError.keyError ...)`.
* Python ints become `ℤ`; the decimal growth factors become `ℚ`, and
  Python `int(...)` truncation toward zero becomes `pyInt`.
* The mutable year loop of `run_simulation` threads three running
  accumulators and a payback flag; these become the structural recursions
  `cum_cost`, `cum_revenue`, `cum_cashflow` and `payback_upto`.
* The division of monetary fields by `1e6` when building the output table
  is uniform positive display scaling (presentation); values are kept raw
  here.  Every claimed relation is invariant under that scaling, and the
  payback test in the source is performed on the raw accumulator.
* The module-level loop over `scenario_combinations` resolves scenarios by
  label and aborts on an uncaught exception; it becomes `runBatch`.
-/

namespace WHFinance

/-- Simulation horizon in years (`TOTAL_YEARS = 10` in the source). -/
def TOTAL_YEARS : ℕ := 10

/-- A Dragonfly (hardware line A) scenario dictionary. -/
structure HardwareScenario where
  label : String
  price : ℤ
  cost : ℤ
  initial_units : ℤ
  growth : ℚ
  maturation_year : ℕ
  maturation_cost : ℤ

/-- An Eterna (services line) scenario dictionary. -/
structure EternaScenario where
  label : String
  missions_per_year : ℤ
  mission_growth_per_year : ℤ
  avg_revenue_per_mission : ℤ
  avg_cost_per_mission : ℤ
  baseline_cost : ℤ
  maturation_year : ℕ
  maturation_cost : ℤ

/-- A Ravenity (hardware line B) scenario dictionary.  Its maturation year
and cost come from the finance scenario (avionics), not from this record. -/
structure RavenityScenario where
  label : String
  price : ℤ
  cost : ℤ
  initial_units : ℤ
  growth : ℚ

/-- A finance scenario dictionary.  `business_dev_cost_year` is optional:
one configuration generation of the scenario set omits it, and the source
accesses it with a bare dictionary lookup. -/
structure FinanceScenario where
  label : String
  fte_count_by_year : List ℤ
  fte_cost_per : ℤ
  business_dev_cost_year : Option (List ℤ)
  sw_development_customers : List ℤ
  sw_revenue_per_customer_per_year : ℤ
  other_cost : ℤ
  grant_revenue : ℤ
  maturation_year_avionics : ℕ
  maturation_cost_avionics : ℤ

/-- Errors a run can surface: `scenarioNotFound` embeds the uncaught
`StopIteration` of the mandatory finance lookup (the spec's
`ScenarioNotFound`), `keyError` embeds a failed dictionary lookup. -/
inductive SimError where
  | scenarioNotFound (lbl : String)
  | keyError (key : String)

/-- The dictionary key whose lookup can fail in `run_simulation`. -/
def business_dev_key : String := "business_dev_cost_year"

/-- Python `int(x)`: truncation toward zero. -/
def pyInt (q : ℚ) : ℤ := if 0 ≤ q then ⌊q⌋ else -⌊-q⌋

/-- Value of the mutable `units` variable after the precomputation loop has
processed year `y` (`y = 0` is the initial state `units = 0`).  The loop
body sets `units = initial_units` in the first sales year
`maturation_year + 1`, applies `units = int(units * growth)` in every later
year, and leaves `units` unchanged (hence `0`) before the first sales year.
`dragonfly_units_by_year[y-1]` in the source is this value at `y`. -/
def unitsForYear (initial : ℤ) (growth : ℚ) (mat : ℕ) : ℕ → ℤ
  | 0 => 0
  | y + 1 =>
    if y + 1 = mat + 1 then initial
    else if mat + 1 < y + 1 then pyInt ((unitsForYear initial growth mat y : ℚ) * growth)
    else unitsForYear initial growth mat y

/-- The resolved inputs of one simulation run: the three optional product
line scenarios, the finance scenario, and the successfully looked-up
business-development cost sequence. -/
structure Ctx where
  dfs : Option HardwareScenario
  ets : Option EternaScenario
  rvs : Option RavenityScenario
  fin : FinanceScenario
  bdc : List ℤ

/-- `fte_count = finance_scenario["fte_count_by_year"][year - 1]`. -/
def fte_count (c : Ctx) (y : ℕ) : ℤ := c.fin.fte_count_by_year.getD (y - 1) 0

/-- `fte_cost = fte_count * finance_scenario["fte_cost_per"]`. -/
def fte_cost (c : Ctx) (y : ℕ) : ℤ := fte_count c y * c.fin.fte_cost_per

/-- `business_dev_cost = finance_scenario["business_dev_cost_year"][year - 1]`
(the key lookup has already succeeded, yielding `c.bdc`). -/
def business_dev_cost (c : Ctx) (y : ℕ) : ℤ := c.bdc.getD (y - 1) 0

/-- `sw_development_revenue = sw_development_customers[year-1] * sw_revenue_per_customer_per_year`. -/
def sw_development_revenue (c : Ctx) (y : ℕ) : ℤ :=
  c.fin.sw_development_customers.getD (y - 1) 0 * c.fin.sw_revenue_per_customer_per_year

/-- The maturation cost charged in year `y`: starts at `0`, adds the
avionics maturation cost when `y` equals the avionics maturation year, the
Dragonfly maturation cost when the line is active and `y` equals its
maturation year, and likewise for Eterna. -/
def maturation_cost (c : Ctx) (y : ℕ) : ℤ :=
  (if y = c.fin.maturation_year_avionics then c.fin.maturation_cost_avionics else 0) +
  (match c.dfs with
   | some d => if y = d.maturation_year then d.maturation_cost else 0
   | none => 0) +
  (match c.ets with
   | some e => if y = e.maturation_year then e.maturation_cost else 0
   | none => 0)

/-- `uav_units`: the precomputed Dragonfly units for year `y`, `0` when the
line is disabled. -/
def uav_units (c : Ctx) (y : ℕ) : ℤ :=
  match c.dfs with
  | some d => unitsForYear d.initial_units d.growth d.maturation_year y
  | none => 0

/-- `uav_revenue = uav_units * df_scenario["price"]` (0 when disabled). -/
def uav_revenue (c : Ctx) (y : ℕ) : ℤ :=
  match c.dfs with
  | some d => unitsForYear d.initial_units d.growth d.maturation_year y * d.price
  | none => 0

/-- `uav_cost = uav_units * df_scenario["cost"]` (0 when disabled). -/
def uav_cost (c : Ctx) (y : ℕ) : ℤ :=
  match c.dfs with
  | some d => unitsForYear d.initial_units d.growth d.maturation_year y * d.cost
  | none => 0

/-- Eterna missions in year `y` for an active scenario `e`, valid when
`y >= eterna_start_year = e.maturation_year + 1`:
`int(max(0, missions_per_year + mission_growth_per_year * year_index))`.
All quantities are integers, so Python `int(...)` is the identity here. -/
def eternaMissionsActive (e : EternaScenario) (y : ℕ) : ℤ :=
  max 0 (e.missions_per_year + e.mission_growth_per_year * ((y : ℤ) - ((e.maturation_year : ℤ) + 1)))

/-- The `"Eterna Missions"` entry of the year row: the active mission count
when the scenario is present and `y` has reached the start year, else `0`. -/
def eterna_missions (c : Ctx) (y : ℕ) : ℤ :=
  match c.ets with
  | some e => if e.maturation_year + 1 ≤ y then eternaMissionsActive e y else 0
  | none => 0

/-- `eterna_revenue = missions * avg_revenue_per_mission` once services have
started, else the initialisation value `0`. -/
def eterna_revenue (c : Ctx) (y : ℕ) : ℤ :=
  match c.ets with
  | some e =>
    if e.maturation_year + 1 ≤ y then eternaMissionsActive e y * e.avg_revenue_per_mission else 0
  | none => 0

/-- `eterna_cost = baseline_cost + missions * avg_cost_per_mission` once
services have started, else the initialisation value `0`. -/
def eterna_cost (c : Ctx) (y : ℕ) : ℤ :=
  match c.ets with
  | some e =>
    if e.maturation_year + 1 ≤ y then
      e.baseline_cost + eternaMissionsActive e y * e.avg_cost_per_mission
    else 0
  | none => 0

/-- `computer_units`: the precomputed Ravenity units for year `y` (gated by
the avionics maturation year of the finance scenario), `0` when disabled. -/
def computer_units (c : Ctx) (y : ℕ) : ℤ :=
  match c.rvs with
  | some r => unitsForYear r.initial_units r.growth c.fin.maturation_year_avionics y
  | none => 0

/-- `computer_revenue = computer_units * ravenity_scenario["price"]`. -/
def computer_revenue (c : Ctx) (y : ℕ) : ℤ :=
  match c.rvs with
  | some r => unitsForYear r.initial_units r.growth c.fin.maturation_year_avionics y * r.price
  | none => 0

/-- `computer_cost = computer_units * ravenity_scenario["cost"]`. -/
def computer_cost (c : Ctx) (y : ℕ) : ℤ :=
  match c.rvs with
  | some r => unitsForYear r.initial_units r.growth c.fin.maturation_year_avionics y * r.cost
  | none => 0

/-- `total_revenue = grant_revenue + uav_revenue + eterna_revenue + sw_development_revenue + computer_revenue`. -/
def total_revenue (c : Ctx) (y : ℕ) : ℤ :=
  c.fin.grant_revenue + uav_revenue c y + eterna_revenue c y +
    sw_development_revenue c y + computer_revenue c y

/-- `total_cost = fte_cost + business_dev_cost + other_cost + uav_cost + eterna_cost + maturation_cost + computer_cost`. -/
def total_cost (c : Ctx) (y : ℕ) : ℤ :=
  fte_cost c y + business_dev_cost c y + c.fin.other_cost + uav_cost c y +
    eterna_cost c y + maturation_cost c y + computer_cost c y

/-- `net_cashflow = total_revenue - total_cost`. -/
def net_cashflow (c : Ctx) (y : ℕ) : ℤ := total_revenue c y - total_cost c y

/-- The running accumulator `cum_cost` after processing year `y`
(`cum_cost = 0.0` before the loop, `cum_cost += total_cost` each year). -/
def cum_cost (c : Ctx) : ℕ → ℤ
  | 0 => 0
  | y + 1 => cum_cost c y + total_cost c (y + 1)

/-- The running accumulator `cum_revenue` after processing year `y`. -/
def cum_revenue (c : Ctx) : ℕ → ℤ
  | 0 => 0
  | y + 1 => cum_revenue c y + total_revenue c (y + 1)

/-- The running accumulator `cum_cashflow` after processing year `y`. -/
def cum_cashflow (c : Ctx) : ℕ → ℤ
  | 0 => 0
  | y + 1 => cum_cashflow c y + net_cashflow c (y + 1)

/-- The `payback_year` variable after processing year `y`:
`None` initially, set to the current year by
`if payback_year is None and cum_cashflow > 0` inside the loop. -/
def payback_upto (c : Ctx) : ℕ → Option ℕ
  | 0 => none
  | y + 1 =>
    match payback_upto c y with
    | some p => some p
    | none => if 0 < cum_cashflow c (y + 1) then some (y + 1) else none

/-- One row of the output table (raw monetary units; the source scales
monetary fields by `1e-6` for display when building the row). -/
structure YearRec where
  fte_count : ℤ
  fte_cost : ℤ
  business_dev_cost : ℤ
  other_cost : ℤ
  grant_revenue : ℤ
  sw_development_revenue : ℤ
  uav_units : ℤ
  uav_cost : ℤ
  uav_revenue : ℤ
  eterna_missions : ℤ
  eterna_cost : ℤ
  eterna_revenue : ℤ
  computer_units : ℤ
  computer_cost : ℤ
  computer_revenue : ℤ
  maturation_cost : ℤ
  total_cost : ℤ
  total_revenue : ℤ
  net_cashflow : ℤ
  cum_cost : ℤ
  cum_revenue : ℤ
  cum_cashflow : ℤ

/-- The row appended for year `y` (the dictionary built at the end of the
loop body). -/
def yearRec (c : Ctx) (y : ℕ) : YearRec where
  fte_count := fte_count c y
  fte_cost := fte_cost c y
  business_dev_cost := business_dev_cost c y
  other_cost := c.fin.other_cost
  grant_revenue := c.fin.grant_revenue
  sw_development_revenue := sw_development_revenue c y
  uav_units := uav_units c y
  uav_cost := uav_cost c y
  uav_revenue := uav_revenue c y
  eterna_missions := eterna_missions c y
  eterna_cost := eterna_cost c y
  eterna_revenue := eterna_revenue c y
  computer_units := computer_units c y
  computer_cost := computer_cost c y
  computer_revenue := computer_revenue c y
  maturation_cost := maturation_cost c y
  total_cost := total_cost c y
  total_revenue := total_revenue c y
  net_cashflow := net_cashflow c y
  cum_cost := cum_cost c y
  cum_revenue := cum_revenue c y
  cum_cashflow := cum_cashflow c y

/-- The `rows` list after the loop: one record per year `1..TOTAL_YEARS`. -/
def rows (c : Ctx) : List YearRec :=
  (List.range TOTAL_YEARS).map (fun i => yearRec c (i + 1))

/-- Minimum of a list of integers (`pandas.Series.min` on the 10-entry
cumulative cash-flow row; the list is never empty in a run). -/
def listMin : List ℤ → ℤ
  | [] => 0
  | x :: xs => xs.foldl min x

/-- The `"Cumul Oper P/L"` row of the table, years `1..TOTAL_YEARS`. -/
def cum_cashflow_list (c : Ctx) : List ℤ := (rows c).map YearRec.cum_cashflow

/-- `total_investment = -min(0, df.loc["Cumul Oper P/L"].min())`. -/
def total_investment (c : Ctx) : ℤ := -(min 0 (listMin (cum_cashflow_list c)))

/-- `total_return = df.loc["Cumul Oper P/L"].iloc[-1]` (last year). -/
def total_return (c : Ctx) : ℤ := (cum_cashflow_list c).getLastD 0

/-- `roi = total_return / total_investment if total_investment else 0.0`. -/
def roi (c : Ctx) : ℚ :=
  if total_investment c = 0 then 0 else (total_return c : ℚ) / (total_investment c : ℚ)

/-- `moic = (total_return + total_investment) / total_investment if total_investment else 0.0`. -/
def moic (c : Ctx) : ℚ :=
  if total_investment c = 0 then 0
  else ((total_return c : ℚ) + (total_investment c : ℚ)) / (total_investment c : ℚ)

/-- Everything `run_simulation` returns. -/
structure RunResult where
  rows : List YearRec
  total_investment : ℤ
  total_return : ℤ
  roi : ℚ
  moic : ℚ
  payback_year : Option ℕ

/-- `run_simulation(df_scenario, eterna_scenario, ravenity_scenario,
finance_scenario)`.  The dictionary lookup
`finance_scenario["business_dev_cost_year"]` in the year loop raises
`KeyError` when the key is absent; nothing has been returned by then, so
the run produces no result in that case. -/
def run_simulation (dfs : Option HardwareScenario) (ets : Option EternaScenario)
    (rvs : Option RavenityScenario) (fin : FinanceScenario) :
    Except SimError RunResult :=
  match fin.business_dev_cost_year with
  | none => .error (.keyError business_dev_key)
  | some bdc =>
    let c : Ctx := ⟨dfs, ets, rvs, fin, bdc⟩
    .ok { rows := rows c
          total_investment := total_investment c
          total_return := total_return c
          roi := roi c
          moic := moic c
          payback_year := payback_upto c TOTAL_YEARS }

/-- A scenario combination request (one entry of `scenario_combinations`). -/
structure Combo where
  dragonfly : Option String
  eterna : Option String
  ravenity : Option String
  finance : String

/-- `next((d for d in scenarios if combo[k] and d["label"] == combo[k]), None)`:
lookup of an optional line.  A `None` selection is falsy, as is the empty
string, so both disable the line; an unmatched label yields `None` from the
generator default. -/
def resolveOptional {α : Type} (label : α → String) (scenarios : List α)
    (sel : Option String) : Option α :=
  match sel with
  | none => none
  | some lbl => if lbl = "" then none else scenarios.find? (fun a => decide (label a = lbl))

/-- `next(f for f in financial_scenarios if f["label"] == combo["finance"])`:
the mandatory finance lookup; no default, so an unmatched label raises
(`StopIteration`, the spec's `ScenarioNotFound`). -/
def resolveFinance (scenarios : List FinanceScenario) (lbl : String) :
    Except SimError FinanceScenario :=
  match scenarios.find? (fun f => decide (f.label = lbl)) with
  | some f => .ok f
  | none => .error (.scenarioNotFound lbl)

/-- One iteration of the module-level loop (resolution plus the call to
`run_simulation`; presentation output is discarded). -/
def processCombo (dfSet : List HardwareScenario) (etSet : List EternaScenario)
    (rvSet : List RavenityScenario) (finSet : List FinanceScenario)
    (combo : Combo) : Except SimError RunResult :=
  match resolveFinance finSet combo.finance with
  | .error e => .error e
  | .ok fin =>
    run_simulation (resolveOptional HardwareScenario.label dfSet combo.dragonfly)
      (resolveOptional EternaScenario.label etSet combo.eterna)
      (resolveOptional RavenityScenario.label rvSet combo.ravenity) fin

/-- The module-level loop over `scenario_combinations`.  An uncaught
exception in one iteration aborts the whole loop, so no later combination
is processed after a failure. -/
def runBatch (dfSet : List HardwareScenario) (etSet : List EternaScenario)
    (rvSet : List RavenityScenario) (finSet : List FinanceScenario) :
    List Combo → Except SimError (List RunResult)
  | [] => .ok []
  | combo :: rest =>
    match processCombo dfSet etSet rvSet finSet combo with
    | .error e => .error e
    | .ok r =>
      match runBatch dfSet etSet rvSet finSet rest with
      | .error e => .error e
      | .ok rs => .ok (r :: rs)

/-! ## Configured scenario data (the module-level tables of the source) -/

/-- The single configured Dragonfly scenario. -/
def dragonfly_125 : HardwareScenario where
  label := "Dragonfly 125+35%"
  price := 45000
  cost := 10000
  initial_units := 125
  growth := 1.35
  maturation_year := 2
  maturation_cost := 4000000

/-- `dragonfly_scenarios`. -/
def dragonfly_scenarios : List HardwareScenario := [dragonfly_125]

/-- First configured Eterna scenario. -/
def eterna_1wk : EternaScenario where
  label := "Eterna 1/wk+2/wk Services"
  missions_per_year := 52
  mission_growth_per_year := 104
  avg_revenue_per_mission := 50000
  avg_cost_per_mission := 10000
  baseline_cost := 25000
  maturation_year := 3
  maturation_cost := 4000000

/-- Second configured Eterna scenario. -/
def eterna_dod : EternaScenario where
  label := "Eterna 4/wk Services DoD"
  missions_per_year := 4 * 52
  mission_growth_per_year := 52
  avg_revenue_per_mission := 55000
  avg_cost_per_mission := 20000
  baseline_cost := 500000
  maturation_year := 2
  maturation_cost := 6 * 300000 + 2000000

/-- Third configured Eterna scenario. -/
def eterna_dod_yr4 : EternaScenario where
  label := "Eterna 4/wk Services DoD yr 4"
  missions_per_year := 4 * 52
  mission_growth_per_year := 52
  avg_revenue_per_mission := 55000
  avg_cost_per_mission := 20000
  baseline_cost := 500000
  maturation_year := 4
  maturation_cost := 6 * 300000 + 2000000

/-- `eterna_service_scenarios`. -/
def eterna_service_scenarios : List EternaScenario := [eterna_1wk, eterna_dod, eterna_dod_yr4]

/-- The single configured Ravenity scenario (maturation data comes from the
finance scenario). -/
def ravenity_250 : RavenityScenario where
  label := "Ravenity 250+35%"
  price := 20000
  cost := 5000
  initial_units := 250
  growth := 1.35

/-- `ravenity_scenarios`. -/
def ravenity_scenarios : List RavenityScenario := [ravenity_250]

/-- The business-development cost sequence of the configured finance
scenario. -/
def bdc_scale11 : List ℤ :=
  [600000, 750000, 1000000, 1000000, 1000000, 1000000, 1000000, 1000000, 1000000, 1000000]

/-- The single configured finance scenario. -/
def fin_scale11 : FinanceScenario where
  label := "Scale to 11 FTE"
  fte_count_by_year := [5, 9, 11, 11, 11, 11, 11, 11, 11, 11]
  fte_cost_per := 212500
  business_dev_cost_year := some bdc_scale11
  sw_development_customers := [0, 3, 5, 5, 5, 5, 5, 5, 5, 5]
  sw_revenue_per_customer_per_year := 1880 * 150
  other_cost := 400000
  grant_revenue := 100000
  maturation_year_avionics := 2
  maturation_cost_avionics := 2000000

/-- `financial_scenarios`. -/
def financial_scenarios : List FinanceScenario := [fin_scale11]

/-- `scenario_combinations`. -/
def scenario_combinations : List Combo :=
  [⟨none, none, some "Ravenity 250+35%", "Scale to 11 FTE"⟩,
   ⟨some "Dragonfly 125+35%", none, none, "Scale to 11 FTE"⟩,
   ⟨none, some "Eterna 4/wk Services DoD", none, "Scale to 11 FTE"⟩,
   ⟨some "Dragonfly 125+35%", some "Eterna 4/wk Services DoD", some "Ravenity 250+35%",
    "Scale to 11 FTE"⟩]

/-! ## Auxiliary concrete inputs used by witnesses and counterexamples -/

/-- A finance scenario of a configuration generation that omits the
business-development line (the dictionary key is absent). -/
def fin_no_bdc : FinanceScenario := { fin_scale11 with business_dev_cost_year := none }

/-- A finance label matching no configured finance scenario. -/
def bad_label : String := "No Such Finance"

/-- A combination whose mandatory finance label matches nothing. -/
def combo_bad : Combo := ⟨none, none, none, bad_label⟩

/-- A combination resolving to a finance-only run (all product lines off). -/
def combo_good : Combo := ⟨none, none, none, "Scale to 11 FTE"⟩

/-- A run context with every optional line disabled. -/
def ctx_finance_only : Ctx := ⟨none, none, none, fin_scale11, bdc_scale11⟩

/-- A run context with only the Eterna DoD services line active. -/
def ctx_eterna : Ctx := ⟨none, some eterna_dod, none, fin_scale11, bdc_scale11⟩

/-- A run context with all three product lines active. -/
def ctx_all : Ctx := ⟨some dragonfly_125, some eterna_dod, some ravenity_250, fin_scale11, bdc_scale11⟩

/-- A cost-free finance scenario whose only flow is grant revenue, so the
cumulative cash flow never goes negative. -/
def fin_grant_only : FinanceScenario where
  label := "Grant Only"
  fte_count_by_year := []
  fte_cost_per := 0
  business_dev_cost_year := some []
  sw_development_customers := []
  sw_revenue_per_customer_per_year := 0
  other_cost := 0
  grant_revenue := 100000
  maturation_year_avionics := 0
  maturation_cost_avionics := 0

/-- The run context of `fin_grant_only` with all lines disabled. -/
def ctx_grant_only : Ctx := ⟨none, none, none, fin_grant_only, []⟩

/-- A Dragonfly scenario whose maturation year is `0`. -/
def dragonfly_mat0 : HardwareScenario := { dragonfly_125 with maturation_year := 0 }

/-- An Eterna scenario whose maturation year is `0`. -/
def eterna_mat0 : EternaScenario := { eterna_dod with maturation_year := 0 }

/-- Run context exercising maturation year `0` on Dragonfly and Eterna. -/
def ctx_mat0 : Ctx := ⟨some dragonfly_mat0, some eterna_mat0, none, fin_scale11, bdc_scale11⟩

/-! ## Spec-side reading of the maturation charge (for the refinement
comparison of the per-year maturation cost) -/

/-- The active maturation lines of a run as the spec enumerates them: the
avionics line of the finance scenario, the Dragonfly line when active, the
Eterna line when active; each as (maturation year, maturation cost).
Hardware line B has no maturation entry of its own (avionics-linked). -/
def maturationLines (c : Ctx) : List (ℕ × ℤ) :=
  [(c.fin.maturation_year_avionics, c.fin.maturation_cost_avionics)] ++
  (match c.dfs with
   | some d => [(d.maturation_year, d.maturation_cost)]
   | none => []) ++
  (match c.ets with
   | some e => [(e.maturation_year, e.maturation_cost)]
   | none => [])

/-- Modelled from the spec sentence for the Year Simulator: the sum, over
exactly those active lines whose configured maturation year equals `y`, of
that line's maturation cost. -/
def maturation_cost_spec (c : Ctx) (y : ℕ) : ℤ :=
  ((maturationLines c).filter (fun p => decide (p.1 = y))).foldl (fun s p => s + p.2) 0

/-! ## Helper lemmas -/

theorem pyInt_eq_floor {q : ℚ} (h : 0 ≤ q) : pyInt q = ⌊q⌋ := by
  simp [pyInt, h]

theorem pyInt_nonneg {q : ℚ} (h : 0 ≤ q) : 0 ≤ pyInt q := by
  rw [pyInt_eq_floor h]
  exact Int.floor_nonneg.mpr h

theorem unitsForYear_zero_before (initial : ℤ) (growth : ℚ) (mat : ℕ) :
    ∀ y, y < mat + 1 → unitsForYear initial growth mat y = 0 := by
  intro y
  induction y with
  | zero => intro _; rfl
  | succ n ih =>
    intro h
    unfold unitsForYear
    rw [if_neg (by omega), if_neg (by omega)]
    exact ih (by omega)

theorem unitsForYear_first (initial : ℤ) (growth : ℚ) (mat : ℕ) :
    unitsForYear initial growth mat (mat + 1) = initial := by
  unfold unitsForYear
  simp

theorem unitsForYear_succ (initial : ℤ) (growth : ℚ) (mat : ℕ) (n : ℕ) :
    unitsForYear initial growth mat (n + 1) =
      if n + 1 = mat + 1 then initial
      else if mat + 1 < n + 1 then pyInt ((unitsForYear initial growth mat n : ℚ) * growth)
      else unitsForYear initial growth mat n := rfl

theorem unitsForYear_step (initial : ℤ) (growth : ℚ) (mat : ℕ) {y : ℕ}
    (h : mat + 1 < y) :
    unitsForYear initial growth mat y =
      pyInt ((unitsForYear initial growth mat (y - 1) : ℚ) * growth) := by
  obtain ⟨n, rfl⟩ : ∃ n, y = n + 1 := ⟨y - 1, by omega⟩
  rw [unitsForYear_succ, if_neg (by omega), if_pos (by omega), Nat.add_sub_cancel]

theorem unitsForYear_nonneg (initial : ℤ) (growth : ℚ) (mat : ℕ)
    (hi : 0 ≤ initial) (hg : 0 ≤ growth) :
    ∀ y, 0 ≤ unitsForYear initial growth mat y := by
  intro y
  induction y with
  | zero => exact le_refl 0
  | succ n ih =>
    unfold unitsForYear
    split
    · exact hi
    · split
      · exact pyInt_nonneg (mul_nonneg (by exact_mod_cast ih) hg)
      · exact ih

/-- C3: for every active hardware line, the precomputed units sequence is 0
for all years strictly before `maturation_year + 1`, equals `initial_units`
at year `maturation_year + 1`, and for each subsequent year equals the
floor (truncation, not rounding) of the previous year's already-truncated
units times `growth_factor`; with `initial_units = 100`, `growth = 1.25`,
`maturation_year = 2` the sequence gives `units[3] = 100`,
`units[4] = 125`, `units[5] = 156`, `units[6] = 195`. -/
theorem units_precomputation_correct (initial : ℤ) (growth : ℚ) (mat : ℕ)
    (hi : 0 ≤ initial) (hg : 0 ≤ growth) :
    (∀ y, y < mat + 1 → unitsForYear initial growth mat y = 0) ∧
    unitsForYear initial growth mat (mat + 1) = initial ∧
    (∀ y, mat + 1 < y → unitsForYear initial growth mat y =
      ⌊(unitsForYear initial growth mat (y - 1) : ℚ) * growth⌋) ∧
    (unitsForYear 100 (1.25 : ℚ) 2 3 = 100 ∧ unitsForYear 100 (1.25 : ℚ) 2 4 = 125 ∧
      unitsForYear 100 (1.25 : ℚ) 2 5 = 156 ∧ unitsForYear 100 (1.25 : ℚ) 2 6 = 195) := by
  have e3 : unitsForYear 100 (1.25 : ℚ) 2 3 = 100 := unitsForYear_first 100 (1.25 : ℚ) 2
  have e4 : unitsForYear 100 (1.25 : ℚ) 2 4 = 125 := by
    rw [unitsForYear_step 100 (1.25 : ℚ) 2 (by omega),
      (show (4 : ℕ) - 1 = 3 from rfl), e3, pyInt_eq_floor (by norm_num)]
    norm_num
  have e5 : unitsForYear 100 (1.25 : ℚ) 2 5 = 156 := by
    rw [unitsForYear_step 100 (1.25 : ℚ) 2 (by omega),
      (show (5 : ℕ) - 1 = 4 from rfl), e4, pyInt_eq_floor (by norm_num)]
    norm_num
  have e6 : unitsForYear 100 (1.25 : ℚ) 2 6 = 195 := by
    rw [unitsForYear_step 100 (1.25 : ℚ) 2 (by omega),
      (show (6 : ℕ) - 1 = 5 from rfl), e5, pyInt_eq_floor (by norm_num)]
    norm_num
  refine ⟨unitsForYear_zero_before initial growth mat, unitsForYear_first initial growth mat,
    ?_, e3, e4, e5, e6⟩
  intro y hy
  rw [unitsForYear_step initial growth mat hy,
    pyInt_eq_floor (mul_nonneg (by exact_mod_cast unitsForYear_nonneg initial growth mat hi hg _) hg)]

/-- Witness for C3 at the concrete inputs of the claim. -/
theorem units_precomputation_correct_witness :
    unitsForYear 100 (1.25 : ℚ) 2 2 = 0 ∧ unitsForYear 100 (1.25 : ℚ) 2 6 = 195 :=
  ⟨(units_precomputation_correct 100 (1.25 : ℚ) 2 (by norm_num) (by norm_num)).1 2 (by omega),
   (units_precomputation_correct 100 (1.25 : ℚ) 2 (by norm_num) (by norm_num)).2.2.2.2.2.2⟩

theorem cum_cost_succ (c : Ctx) (n : ℕ) :
    cum_cost c (n + 1) = cum_cost c n + total_cost c (n + 1) := rfl

theorem cum_revenue_succ (c : Ctx) (n : ℕ) :
    cum_revenue c (n + 1) = cum_revenue c n + total_revenue c (n + 1) := rfl

theorem cum_cashflow_succ (c : Ctx) (n : ℕ) :
    cum_cashflow c (n + 1) = cum_cashflow c n + net_cashflow c (n + 1) := rfl

theorem rows_getElem (c : Ctx) {y : ℕ} (h1 : 1 ≤ y) (h2 : y ≤ TOTAL_YEARS) :
    (rows c)[y - 1]? = some (yearRec c y) := by
  obtain ⟨n, rfl⟩ : ∃ n, y = n + 1 := ⟨y - 1, by omega⟩
  have hn : n < TOTAL_YEARS := by omega
  simp [rows, List.getElem?_range, hn]

/-- C2: for every simulation run and every year `y` in `1..10`, the
cumulative cost stored in Year Record `y` equals the cumulative cost of
Year Record `y-1` plus that year's total cost (with cumulative value 0
before year 1), and the same recurrence holds for cumulative revenue and
cumulative cash flow. -/
theorem cumulative_recurrence (c : Ctx) (y : ℕ) (h1 : 1 ≤ y) (h2 : y ≤ TOTAL_YEARS) :
    (rows c)[y - 1]? = some (yearRec c y) ∧
    (yearRec c y).cum_cost =
      (if y = 1 then 0 else (yearRec c (y - 1)).cum_cost) + (yearRec c y).total_cost ∧
    (yearRec c y).cum_revenue =
      (if y = 1 then 0 else (yearRec c (y - 1)).cum_revenue) + (yearRec c y).total_revenue ∧
    (yearRec c y).cum_cashflow =
      (if y = 1 then 0 else (yearRec c (y - 1)).cum_cashflow) + (yearRec c y).net_cashflow := by
  refine ⟨rows_getElem c h1 h2, ?_, ?_, ?_⟩ <;>
  · obtain ⟨n, rfl⟩ : ∃ n, y = n + 1 := ⟨y - 1, by omega⟩
    rcases Nat.eq_zero_or_pos n with hn | hn
    · subst hn
      simp [yearRec, cum_cost, cum_revenue, cum_cashflow]
    · rw [if_neg (by omega), Nat.add_sub_cancel]
      first
      | exact cum_cost_succ c n
      | exact cum_revenue_succ c n
      | exact cum_cashflow_succ c n

/-- Witness for C2: the recurrence at year 2 of the finance-only run of the
configured scenario set. -/
theorem cumulative_recurrence_witness :
    (yearRec ctx_finance_only 2).cum_cost =
      (if 2 = 1 then 0 else (yearRec ctx_finance_only (2 - 1)).cum_cost) +
        (yearRec ctx_finance_only 2).total_cost :=
  (cumulative_recurrence ctx_finance_only 2 (by omega) (by norm_num [TOTAL_YEARS])).2.1

theorem payback_upto_succ (c : Ctx) (n : ℕ) :
    payback_upto c (n + 1) =
      match payback_upto c n with
      | some p => some p
      | none => if 0 < cum_cashflow c (n + 1) then some (n + 1) else none := rfl

theorem payback_upto_succ_of_some (c : Ctx) {n p : ℕ} (h : payback_upto c n = some p) :
    payback_upto c (n + 1) = some p := by
  rw [payback_upto_succ, h]

theorem payback_upto_succ_of_none (c : Ctx) {n : ℕ} (h : payback_upto c n = none) :
    payback_upto c (n + 1) =
      if 0 < cum_cashflow c (n + 1) then some (n + 1) else none := by
  rw [payback_upto_succ, h]

theorem payback_upto_mono (c : Ctx) {n p : ℕ} (h : payback_upto c n = some p) :
    ∀ m, n ≤ m → payback_upto c m = some p := by
  intro m hm
  induction m with
  | zero => exact (Nat.le_zero.mp hm) ▸ h
  | succ k ih =>
    rcases Nat.lt_or_ge n (k + 1) with hlt | hge
    · exact payback_upto_succ_of_some c (ih (by omega))
    · have hnk : n = k + 1 := by omega
      exact hnk ▸ h

theorem payback_upto_none_iff (c : Ctx) :
    ∀ n, payback_upto c n = none ↔ ∀ q, 1 ≤ q → q ≤ n → cum_cashflow c q ≤ 0 := by
  intro n
  induction n with
  | zero =>
    constructor
    · intro _ q h1 h2; omega
    · intro _; rfl
  | succ k ih =>
    constructor
    · intro h q h1 h2
      cases hk : payback_upto c k with
      | some p => exact absurd (h ▸ payback_upto_succ_of_some c hk) (by simp)
      | none =>
        rcases Nat.lt_or_ge q (k + 1) with hq | hq
        · exact (ih.mp hk) q h1 (by omega)
        · obtain rfl : q = k + 1 := by omega
          by_contra hpos
          rw [payback_upto_succ_of_none c hk, if_pos (by omega)] at h
          exact Option.some_ne_none _ h
    · intro h
      have hk : payback_upto c k = none := ih.mpr (fun q h1 h2 => h q h1 (by omega))
      rw [payback_upto_succ_of_none c hk,
        if_neg (by have := h (k + 1) (by omega) (by omega); omega)]

theorem payback_upto_spec (c : Ctx) :
    ∀ n p, payback_upto c n = some p →
      1 ≤ p ∧ p ≤ n ∧ 0 < cum_cashflow c p ∧ ∀ q, 1 ≤ q → q < p → cum_cashflow c q ≤ 0 := by
  intro n
  induction n with
  | zero => intro p h; exact absurd h (by simp [payback_upto])
  | succ k ih =>
    intro p h
    cases hk : payback_upto c k with
    | none =>
      rw [payback_upto_succ_of_none c hk] at h
      by_cases hpos : 0 < cum_cashflow c (k + 1)
      · rw [if_pos hpos] at h
        obtain rfl : k + 1 = p := Option.some_injective _ h
        exact ⟨by omega, le_refl _, hpos,
          fun q h1 h2 => ((payback_upto_none_iff c k).mp hk) q h1 (by omega)⟩
      · rw [if_neg hpos] at h
        exact absurd h.symm (Option.some_ne_none _)
    | some p' =>
      have hsp : some p' = some p := (payback_upto_succ_of_some c hk).symm.trans h
      obtain rfl : p' = p := Option.some_injective _ hsp
      obtain ⟨a, b, d, e⟩ := ih p' hk
      exact ⟨a, by omega, d, e⟩

/-- C5: `payback_year` is set to the first year `y` in `1..10` at which the
cumulative cash flow strictly exceeds zero and is never changed by any
later year; if the cumulative cash flow never strictly exceeds zero in any
year, `payback_year` remains the not-achieved sentinel (`none`). -/
theorem payback_first_crossing (c : Ctx) :
    (∀ p, payback_upto c TOTAL_YEARS = some p →
      1 ≤ p ∧ p ≤ TOTAL_YEARS ∧ 0 < cum_cashflow c p ∧
        ∀ q, 1 ≤ q → q < p → cum_cashflow c q ≤ 0) ∧
    (∀ n p, payback_upto c n = some p → ∀ m, n ≤ m → payback_upto c m = some p) ∧
    ((∀ q, 1 ≤ q → q ≤ TOTAL_YEARS → cum_cashflow c q ≤ 0) →
      payback_upto c TOTAL_YEARS = none) ∧
    (∀ y, 1 ≤ y → y ≤ TOTAL_YEARS → 0 < cum_cashflow c y →
      ∃ p, payback_upto c TOTAL_YEARS = some p ∧ p ≤ y) := by
  refine ⟨fun p h => payback_upto_spec c TOTAL_YEARS p h,
    fun n p h => payback_upto_mono c h, (payback_upto_none_iff c TOTAL_YEARS).mpr, ?_⟩
  intro y h1 h2 hpos
  rcases hn : payback_upto c TOTAL_YEARS with _ | p
  · exact absurd (((payback_upto_none_iff c TOTAL_YEARS).mp hn) y h1 h2) (by omega)
  · obtain ⟨_, _, _, hfirst⟩ := payback_upto_spec c TOTAL_YEARS p hn
    refine ⟨p, rfl, ?_⟩
    by_contra hyp
    exact absurd hpos (by have := hfirst y h1 (by omega); omega)

/-- Witness for C5: the configured finance-only run never reaches positive
cumulative cash flow, so its payback year stays the sentinel. -/
theorem payback_first_crossing_witness :
    payback_upto ctx_finance_only TOTAL_YEARS = none :=
  (payback_first_crossing ctx_finance_only).2.2.1
    (by
      intro q h1 h2
      have h2' : q ≤ 10 := h2
      interval_cases q <;> decide)

theorem foldl_min_nonneg {xs : List ℤ} {a : ℤ} (ha : 0 ≤ a)
    (hxs : ∀ x ∈ xs, 0 ≤ x) : 0 ≤ xs.foldl min a := by
  induction xs generalizing a with
  | nil => exact ha
  | cons x xs ih =>
    exact ih (le_min ha (hxs x (List.mem_cons_self _ _))) (fun z hz => hxs z (List.mem_cons_of_mem x hz))

theorem listMin_nonneg {l : List ℤ} (h : ∀ x ∈ l, 0 ≤ x) : 0 ≤ listMin l := by
  cases l with
  | nil => exact le_refl 0
  | cons x xs =>
    exact foldl_min_nonneg (h x (List.mem_cons_self _ _)) (fun z hz => h z (List.mem_cons_of_mem x hz))

theorem cum_cashflow_list_eq (c : Ctx) :
    cum_cashflow_list c = (List.range TOTAL_YEARS).map (fun i => cum_cashflow c (i + 1)) := rfl

/-- C4: for every completed run, `total_investment` equals
`max 0 (-(minimum cumulative cash flow over all years))`, `total_return`
equals the cumulative cash flow at the final year, ROI equals
`total_return / total_investment` and MOIC equals
`(total_return + total_investment) / total_investment` when
`total_investment > 0`, and ROI and MOIC both equal 0 (with
`total_investment = 0`) when the cumulative cash flow is never negative
across the horizon. -/
theorem metrics_aggregator_correct (c : Ctx) :
    total_investment c = max 0 (-(listMin (cum_cashflow_list c))) ∧
    total_return c = cum_cashflow c TOTAL_YEARS ∧
    (0 < total_investment c →
      roi c = (total_return c : ℚ) / (total_investment c : ℚ) ∧
      moic c = ((total_return c : ℚ) + (total_investment c : ℚ)) / (total_investment c : ℚ)) ∧
    ((∀ q, 1 ≤ q → q ≤ TOTAL_YEARS → 0 ≤ cum_cashflow c q) →
      total_investment c = 0 ∧ roi c = 0 ∧ moic c = 0) := by
  refine ⟨by simp only [total_investment]; omega, rfl, ?_, ?_⟩
  · intro h
    have hne : total_investment c ≠ 0 := by omega
    rw [roi, if_neg hne, moic, if_neg hne]
    exact ⟨rfl, rfl⟩
  · intro h
    have hmem : ∀ x ∈ cum_cashflow_list c, 0 ≤ x := by
      intro x hx
      rw [cum_cashflow_list_eq] at hx
      obtain ⟨i, hi, rfl⟩ := List.mem_map.mp hx
      exact h (i + 1) (by omega) (by have := List.mem_range.mp hi; omega)
    have hmin : 0 ≤ listMin (cum_cashflow_list c) := listMin_nonneg hmem
    have hinv : total_investment c = 0 := by simp only [total_investment]; omega
    exact ⟨hinv, by rw [roi, if_pos hinv], by rw [moic, if_pos hinv]⟩

/-- Witness for C4: the grant-only run never goes cash-negative, so its
investment, ROI and MOIC are all zero. -/
theorem metrics_aggregator_correct_witness :
    total_investment ctx_grant_only = 0 ∧ roi ctx_grant_only = 0 ∧ moic ctx_grant_only = 0 :=
  (metrics_aggregator_correct ctx_grant_only).2.2.2
    (by
      intro q h1 h2
      have h2' : q ≤ 10 := h2
      interval_cases q <;> decide)

/-- C6: for every active services scenario and every year `y`: if
`y < maturation_year + 1` then services revenue and cost are both zero;
otherwise missions equals
`max 0 (missions_in_first_service_year + mission_growth_per_year * (y - (maturation_year + 1)))`
(all integer, so Python truncation is the identity) — never negative even
when `mission_growth_per_year` is negative — with services revenue
`missions * avg_revenue_per_mission` and services cost
`baseline_fixed_annual_cost + missions * avg_cost_per_mission`. -/
theorem services_line_correct (e : EternaScenario) (c : Ctx) (hc : c.ets = some e) (y : ℕ) :
    (y < e.maturation_year + 1 → eterna_revenue c y = 0 ∧ eterna_cost c y = 0) ∧
    (e.maturation_year + 1 ≤ y →
      eterna_missions c y =
        max 0 (e.missions_per_year +
          e.mission_growth_per_year * ((y : ℤ) - ((e.maturation_year : ℤ) + 1))) ∧
      0 ≤ eterna_missions c y ∧
      eterna_revenue c y = eterna_missions c y * e.avg_revenue_per_mission ∧
      eterna_cost c y = e.baseline_cost + eterna_missions c y * e.avg_cost_per_mission) := by
  constructor
  · intro hy
    simp only [eterna_revenue, eterna_cost, hc]
    rw [if_neg (by omega), if_neg (by omega)]
    exact ⟨rfl, rfl⟩
  · intro hy
    simp only [eterna_missions, eterna_revenue, eterna_cost, hc, if_pos hy]
    refine ⟨?_, ?_, ?_, ?_⟩ <;> first | exact le_max_left 0 _ | rfl | trivial

/-- Witness for C6: the Eterna DoD scenario in the configured combination,
before its start year and in service year 3. -/
theorem services_line_correct_witness :
    eterna_revenue ctx_eterna 1 = 0 ∧ 0 ≤ eterna_missions ctx_eterna 5 :=
  ⟨((services_line_correct eterna_dod ctx_eterna rfl 1).1 (by decide)).1,
   ((services_line_correct eterna_dod ctx_eterna rfl 5).2 (by decide)).2.1⟩

/-- C7: for every year `y`, the year's maturation cost equals the sum of
the maturation costs of exactly those active lines (avionics from the
finance scenario, hardware line A, services) whose configured maturation
year equals `y`; multiple lines maturing in the same year sum together, and
a line with a different maturation year contributes nothing (removing it
leaves the year's maturation cost unchanged). -/
theorem maturation_cost_by_year (c : Ctx) (y : ℕ) :
    maturation_cost c y = maturation_cost_spec c y ∧
    (∀ d, c.dfs = some d → y ≠ d.maturation_year →
      maturation_cost c y = maturation_cost { c with dfs := none } y) ∧
    (∀ e, c.ets = some e → y ≠ e.maturation_year →
      maturation_cost c y = maturation_cost { c with ets := none } y) := by
  refine ⟨?_, ?_, ?_⟩
  · rcases c with ⟨dfs, ets, rvs, fin, bdc⟩
    rcases dfs with _ | d <;> rcases ets with _ | e <;>
      simp only [maturation_cost, maturation_cost_spec, maturationLines, List.cons_append,
        List.nil_append, List.append_nil, List.filter_cons, List.filter_nil,
        decide_eq_true_eq] <;>
      split_ifs <;>
      simp only [List.foldl_cons, List.foldl_nil] <;>
      omega
  · intro d hd hy
    simp only [maturation_cost, hd]
    rw [if_neg hy]
  · intro e he hy
    simp only [maturation_cost, he]
    rw [if_neg hy]

/-- Witness for C7: the all-lines run of the configured scenario set in
year 2 (two lines mature) and the no-contribution fact for Dragonfly in
year 5. -/
theorem maturation_cost_by_year_witness :
    maturation_cost ctx_all 2 = maturation_cost_spec ctx_all 2 ∧
    maturation_cost ctx_all 5 = maturation_cost { ctx_all with dfs := none } 5 :=
  ⟨(maturation_cost_by_year ctx_all 2).1,
   (maturation_cost_by_year ctx_all 5).2.1 dragonfly_125 rfl (by decide)⟩

/-- Counterexample to C1: a finance scenario without the
business-development sequence makes the run fail on the dictionary lookup;
it does not complete with that component treated as zero. -/
theorem business_dev_absent_counterexample :
    run_simulation none none none fin_no_bdc =
      Except.error (SimError.keyError business_dev_key) := rfl

/-- C1 (amended): when the per-year business-development cost sequence is
absent from the finance scenario, the run fails with a `KeyError` on
`business_dev_cost_year` instead of treating the component as zero; when
the sequence is present the run completes. -/
theorem business_dev_absent_fails (dfs : Option HardwareScenario) (ets : Option EternaScenario)
    (rvs : Option RavenityScenario) (fin : FinanceScenario) :
    (fin.business_dev_cost_year = none →
      run_simulation dfs ets rvs fin = Except.error (SimError.keyError business_dev_key)) ∧
    (∀ bdc, fin.business_dev_cost_year = some bdc →
      (run_simulation dfs ets rvs fin).isOk = true) := by
  constructor
  · intro h
    simp only [run_simulation, h]
  · intro bdc h
    simp only [run_simulation, h, Except.isOk, Except.toBool]

/-- Witness for the amended C1 at concrete inputs: the key-less finance
scenario fails, the configured one completes. -/
theorem business_dev_absent_fails_witness :
    run_simulation none (some eterna_dod) none fin_no_bdc =
      Except.error (SimError.keyError business_dev_key) ∧
    (run_simulation none none none fin_scale11).isOk = true :=
  ⟨(business_dev_absent_fails none (some eterna_dod) none fin_no_bdc).1 rfl,
   (business_dev_absent_fails none none none fin_scale11).2 bdc_scale11 rfl⟩

theorem resolveOptional_none {α : Type} (label : α → String) (scenarios : List α) :
    resolveOptional label scenarios none = none := rfl

theorem resolveOptional_unmatched {α : Type} (label : α → String) (scenarios : List α)
    (lbl : String) (h : scenarios.find? (fun a => decide (label a = lbl)) = none) :
    resolveOptional label scenarios (some lbl) = none := by
  simp only [resolveOptional, h]
  split_ifs <;> rfl

/-- Counterexample to C8: an unmatched mandatory finance label in the first
combination aborts the module-level loop, so the second (well-formed)
combination produces no result, even though it succeeds when run alone. -/
theorem batch_abort_counterexample :
    runBatch dragonfly_scenarios eterna_service_scenarios ravenity_scenarios
        financial_scenarios [combo_bad, combo_good] =
      Except.error (SimError.scenarioNotFound bad_label) ∧
    (runBatch dragonfly_scenarios eterna_service_scenarios ravenity_scenarios
        financial_scenarios [combo_good]).isOk = true := ⟨rfl, rfl⟩

/-- C8 (amended): resolving a combination fails with `ScenarioNotFound` if
and only if the mandatory finance label matches no configured finance
scenario; a provided-but-unmatched label for an optional product line never
causes a failure (the run is the one with that line disabled); but the
failure is an uncaught exception, so in a batch it also aborts every
combination after the failing one. -/
theorem scenario_resolution_amended (dfSet : List HardwareScenario)
    (etSet : List EternaScenario) (rvSet : List RavenityScenario)
    (finSet : List FinanceScenario) (combo : Combo) :
    (processCombo dfSet etSet rvSet finSet combo =
        Except.error (SimError.scenarioNotFound combo.finance) ↔
      finSet.find? (fun f => decide (f.label = combo.finance)) = none) ∧
    (∀ lbl, combo.dragonfly = some lbl →
      dfSet.find? (fun a => decide (a.label = lbl)) = none →
      processCombo dfSet etSet rvSet finSet combo =
        processCombo dfSet etSet rvSet finSet { combo with dragonfly := none }) ∧
    (∀ lbl, combo.eterna = some lbl →
      etSet.find? (fun a => decide (a.label = lbl)) = none →
      processCombo dfSet etSet rvSet finSet combo =
        processCombo dfSet etSet rvSet finSet { combo with eterna := none }) ∧
    (∀ lbl, combo.ravenity = some lbl →
      rvSet.find? (fun a => decide (a.label = lbl)) = none →
      processCombo dfSet etSet rvSet finSet combo =
        processCombo dfSet etSet rvSet finSet { combo with ravenity := none }) ∧
    (∀ rest, finSet.find? (fun f => decide (f.label = combo.finance)) = none →
      runBatch dfSet etSet rvSet finSet (combo :: rest) =
        Except.error (SimError.scenarioNotFound combo.finance)) := by
  refine ⟨⟨?_, ?_⟩, ?_, ?_, ?_, ?_⟩
  · intro h
    cases hf : finSet.find? (fun f => decide (f.label = combo.finance)) with
    | none => rfl
    | some f =>
      exfalso
      rw [processCombo, resolveFinance, hf] at h
      cases hb : f.business_dev_cost_year with
      | none => simp [run_simulation, hb] at h
      | some bdc => simp [run_simulation, hb] at h
  · intro h
    rw [processCombo, resolveFinance, h]
  · intro lbl hsel hfind
    have h0 : resolveOptional HardwareScenario.label dfSet combo.dragonfly = none := by
      rw [hsel]; exact resolveOptional_unmatched _ _ _ hfind
    simp only [processCombo, h0, resolveOptional_none]
  · intro lbl hsel hfind
    have h0 : resolveOptional EternaScenario.label etSet combo.eterna = none := by
      rw [hsel]; exact resolveOptional_unmatched _ _ _ hfind
    simp only [processCombo, h0, resolveOptional_none]
  · intro lbl hsel hfind
    have h0 : resolveOptional RavenityScenario.label rvSet combo.ravenity = none := by
      rw [hsel]; exact resolveOptional_unmatched _ _ _ hfind
    simp only [processCombo, h0, resolveOptional_none]
  · intro rest h
    rw [runBatch, processCombo, resolveFinance, h]

/-- Witness for the amended C8 at the configured scenario sets. -/
theorem scenario_resolution_amended_witness :
    processCombo dragonfly_scenarios eterna_service_scenarios ravenity_scenarios
        financial_scenarios combo_bad =
      Except.error (SimError.scenarioNotFound combo_bad.finance) ∧
    runBatch dragonfly_scenarios eterna_service_scenarios ravenity_scenarios
        financial_scenarios [combo_bad, combo_good] =
      Except.error (SimError.scenarioNotFound combo_bad.finance) :=
  ⟨(scenario_resolution_amended dragonfly_scenarios eterna_service_scenarios
      ravenity_scenarios financial_scenarios combo_bad).1.mpr rfl,
   (scenario_resolution_amended dragonfly_scenarios eterna_service_scenarios
      ravenity_scenarios financial_scenarios combo_bad).2.2.2.2 [combo_good] rfl⟩

/-- C9: for every run in which an optional product line is disabled —
selection `None`, or a provided label matching no configured scenario —
that line contributes zero units, zero revenue and zero cost to every Year
Record, its maturation cost is absent, and the year totals equal the sums
of the remaining components, as if the line never existed. -/
theorem disabled_line_zero_contribution (c : Ctx) :
    (c.dfs = none → ∀ y,
      (yearRec c y).uav_units = 0 ∧ (yearRec c y).uav_revenue = 0 ∧
      (yearRec c y).uav_cost = 0 ∧
      (yearRec c y).total_revenue =
        c.fin.grant_revenue + eterna_revenue c y + sw_development_revenue c y +
          computer_revenue c y ∧
      (yearRec c y).total_cost =
        fte_cost c y + business_dev_cost c y + c.fin.other_cost + eterna_cost c y +
          maturation_cost c y + computer_cost c y ∧
      maturation_cost c y =
        (if y = c.fin.maturation_year_avionics then c.fin.maturation_cost_avionics else 0) +
        (match c.ets with
         | some e => if y = e.maturation_year then e.maturation_cost else 0
         | none => 0)) ∧
    (c.ets = none → ∀ y,
      (yearRec c y).eterna_missions = 0 ∧ (yearRec c y).eterna_revenue = 0 ∧
      (yearRec c y).eterna_cost = 0 ∧
      (yearRec c y).total_revenue =
        c.fin.grant_revenue + uav_revenue c y + sw_development_revenue c y +
          computer_revenue c y ∧
      (yearRec c y).total_cost =
        fte_cost c y + business_dev_cost c y + c.fin.other_cost + uav_cost c y +
          maturation_cost c y + computer_cost c y ∧
      maturation_cost c y =
        (if y = c.fin.maturation_year_avionics then c.fin.maturation_cost_avionics else 0) +
        (match c.dfs with
         | some d => if y = d.maturation_year then d.maturation_cost else 0
         | none => 0)) ∧
    (c.rvs = none → ∀ y,
      (yearRec c y).computer_units = 0 ∧ (yearRec c y).computer_revenue = 0 ∧
      (yearRec c y).computer_cost = 0 ∧
      (yearRec c y).total_revenue =
        c.fin.grant_revenue + uav_revenue c y + eterna_revenue c y +
          sw_development_revenue c y ∧
      (yearRec c y).total_cost =
        fte_cost c y + business_dev_cost c y + c.fin.other_cost + uav_cost c y +
          eterna_cost c y + maturation_cost c y) ∧
    (∀ (α : Type) (label : α → String) (s : List α), resolveOptional label s none = none) ∧
    (∀ (α : Type) (label : α → String) (s : List α) (lbl : String),
      s.find? (fun a => decide (label a = lbl)) = none →
      resolveOptional label s (some lbl) = none) := by
  refine ⟨?_, ?_, ?_, fun α label s => resolveOptional_none label s,
    fun α label s lbl h => resolveOptional_unmatched label s lbl h⟩
  · intro h y
    refine ⟨?_, ?_, ?_, ?_, ?_, ?_⟩ <;>
      simp [yearRec, uav_units, uav_revenue, uav_cost, total_revenue, total_cost,
        maturation_cost, h]
  · intro h y
    refine ⟨?_, ?_, ?_, ?_, ?_, ?_⟩ <;>
      simp [yearRec, eterna_missions, eterna_revenue, eterna_cost, total_revenue,
        total_cost, maturation_cost, h]
  · intro h y
    refine ⟨?_, ?_, ?_, ?_, ?_⟩ <;>
      simp [yearRec, computer_units, computer_revenue, computer_cost, total_revenue,
        total_cost, h]

/-- Witness for C9: the finance-only run of the configured set in year 3,
and the unmatched optional label of the configured Dragonfly set. -/
theorem disabled_line_zero_contribution_witness :
    (yearRec ctx_finance_only 3).uav_units = 0 ∧
    resolveOptional HardwareScenario.label dragonfly_scenarios (some bad_label) = none :=
  ⟨((disabled_line_zero_contribution ctx_finance_only).1 rfl 3).1,
   (disabled_line_zero_contribution ctx_finance_only).2.2.2.2 HardwareScenario
     HardwareScenario.label dragonfly_scenarios bad_label rfl⟩

/-- C10: a line whose configured maturation year is `0` (allowed: the data
model only requires maturation year `≥ 0`) never has its maturation cost
charged — the year loop covers years `1..10` only and the cost is charged
only in the year equal to the maturation year — while the line's sales or
service activity still begins in year 1 (`maturation_year + 1`). -/
theorem maturation_year_zero (c : Ctx) :
    (∀ d, c.dfs = some d → d.maturation_year = 0 →
      (∀ y, 1 ≤ y → maturation_cost c y = maturation_cost { c with dfs := none } y) ∧
      uav_units c 1 = d.initial_units) ∧
    (∀ e, c.ets = some e → e.maturation_year = 0 →
      (∀ y, 1 ≤ y → maturation_cost c y = maturation_cost { c with ets := none } y) ∧
      eterna_missions c 1 = max 0 e.missions_per_year) ∧
    (c.fin.maturation_year_avionics = 0 →
      (∀ y, 1 ≤ y → maturation_cost c y =
        (match c.dfs with
         | some d => if y = d.maturation_year then d.maturation_cost else 0
         | none => 0) +
        (match c.ets with
         | some e => if y = e.maturation_year then e.maturation_cost else 0
         | none => 0)) ∧
      (∀ r, c.rvs = some r → computer_units c 1 = r.initial_units)) := by
  refine ⟨?_, ?_, ?_⟩
  · intro d hd hmat
    constructor
    · intro y hy
      simp only [maturation_cost, hd]
      rw [if_neg (show ¬(y = d.maturation_year) by omega)]
    · simp only [uav_units, hd, hmat]
      exact unitsForYear_first d.initial_units d.growth 0
  · intro e he hmat
    constructor
    · intro y hy
      simp only [maturation_cost, he]
      rw [if_neg (show ¬(y = e.maturation_year) by omega)]
    · simp only [eterna_missions, he, hmat, eternaMissionsActive]
      rw [if_pos (by omega)]
      norm_num
  · intro hmat
    constructor
    · intro y hy
      simp only [maturation_cost, hmat]
      rw [if_neg (by omega)]
      ring
    · intro r hr
      simp only [computer_units, hr, hmat]
      exact unitsForYear_first r.initial_units r.growth 0

/-- Witness for C10: a maturation-year-0 variant of the configured
Dragonfly and Eterna scenarios. -/
theorem maturation_year_zero_witness :
    maturation_cost ctx_mat0 3 = maturation_cost { ctx_mat0 with dfs := none } 3 ∧
    uav_units ctx_mat0 1 = 125 ∧
    eterna_missions ctx_mat0 1 = max 0 (4 * 52) :=
  ⟨((maturation_year_zero ctx_mat0).1 dragonfly_mat0 rfl rfl).1 3 (by omega),
   ((maturation_year_zero ctx_mat0).1 dragonfly_mat0 rfl rfl).2,
   ((maturation_year_zero ctx_mat0).2.1 eterna_mat0 rfl rfl).2⟩

end WHFinance
